import Mathlib

/-!
Shallow embedding of the WeatherBox weather-alert service
(src/weatherbox/models/alert.py, src/weatherbox/weather_service.py,
src/api.py) together with theorems checking the natural-language
specification against it.

Conventions of the embedding:
* Python datetimes are modelled by `PyDatetime`: a naive clock reading in
  minutes plus an optional UTC-offset in minutes (tz-aware iff the offset
  is present).
* External collaborators (the geocoder, `requests.get` + `.json()`, and
  the standard-library `datetime.fromisoformat`) are oracles packed into
  a `ServiceEnv`; an HTTP failure of any kind (network, non-2xx status,
  malformed JSON body) is an `Except.error`.
* Fallible Python code returns `Except String`; a swallowed exception
  (`except Exception: ...`) is an explicit `match` on that `Except`.
* Coordinates are opaque to all control flow, so latitude/longitude are
  modelled as `Int` rather than floating point.
-/

namespace WeatherBox

/-- Model of a Python `datetime`: a naive clock reading (in minutes on a
proleptic-Gregorian time line) plus an optional `utcoffset` in minutes.
`tz = none` models a timezone-naive datetime. -/
structure PyDatetime where
  naive : Int
  tz : Option Int
  deriving DecidableEq, Repr

/-- Days from civil date (proleptic Gregorian), the standard civil-calendar
day count with epoch 1970-01-01; used only to give concrete meaning to the
calendar dates appearing in the specification examples. -/
def daysFromCivil (y m d : Int) : Int :=
  let yy := if m ≤ 2 then y - 1 else y
  let era := (if 0 ≤ yy then yy else yy - 399) / 400
  let yoe := yy - era * 400
  let mp := if 2 < m then m - 3 else m + 9
  let doy := (153 * mp + 2) / 5 + d - 1
  let doe := yoe * 365 + yoe / 4 - yoe / 100 + doy
  era * 146097 + doe - 719468

/-- A timezone-aware UTC midnight datetime for a given civil date. -/
def utcMidnight (y m d : Int) : PyDatetime :=
  { naive := daysFromCivil y m d * 1440, tz := some 0 }

/-!
Python string primitives. The source manipulates Python `str` values;
the Python methods used (`replace`, `split`, slicing, `upper`, `lower`,
`len`, `lstrip`) are modelled here by structurally recursive functions
on the underlying character sequences.
-/

/-- Worker for `pyReplace`: scan the character list, emitting the
replacement at each non-overlapping occurrence of `old` (left to right);
the counter skips the remaining matched characters. -/
def replaceGo (old new : List Char) : List Char → Nat → List Char
  | [], _ => []
  | _ :: rest, k + 1 => replaceGo old new rest k
  | c :: rest, 0 =>
    if old.isPrefixOf (c :: rest) then new ++ replaceGo old new rest (old.length - 1)
    else c :: replaceGo old new rest 0

/-- Python `s.replace(old, new)` for a non-empty `old`. -/
def pyReplace (s old new : String) : String :=
  String.mk (replaceGo old.toList new.toList s.toList 0)

/-- Worker for `pySplit`: split a character list at every occurrence of
the separator character. -/
def splitOnChar (sep : Char) : List Char → List (List Char)
  | [] => [[]]
  | c :: rest =>
    let r := splitOnChar sep rest
    if c = sep then [] :: r
    else
      match r with
      | [] => [[c]]
      | h :: t => (c :: h) :: t

/-- Python `s.split(sep)` for a one-character separator. -/
def pySplit (s : String) (sep : Char) : List String :=
  (splitOnChar sep s.toList).map String.mk

/-- Python slice `s[:n]`. -/
def pyTake (s : String) (n : Nat) : String :=
  String.mk (s.toList.take n)

/-- Python slice `s[n:]`. -/
def pyDrop (s : String) (n : Nat) : String :=
  String.mk (s.toList.drop n)

/-- Python `len(s)`. -/
def pyLen (s : String) : Nat :=
  s.toList.length

/-- Python `s.upper()`. -/
def pyUpper (s : String) : String :=
  String.mk (s.toList.map Char.toUpper)

/-- Python `s.lower()`. -/
def pyLower (s : String) : String :=
  String.mk (s.toList.map Char.toLower)

/-- Python `astimezone(timezone.utc)` for an aware datetime /
`replace(tzinfo=timezone.utc)` for a naive one, exactly as the two
branches of `WeatherAlert.is_expired` use them. -/
def PyDatetime.toUTC (t : PyDatetime) : PyDatetime :=
  match t.tz with
  | some off => { naive := t.naive - off, tz := some 0 }
  | none => { naive := t.naive, tz := some 0 }

/-- Enum `AlertSeverity` (src/weatherbox/models/alert.py). -/
inductive AlertSeverity where
  | UNKNOWN | MINOR | MODERATE | SEVERE | EXTREME
  deriving DecidableEq, Repr, BEq

/-- `AlertSeverity.from_string`: case-insensitive lookup defaulting to
`UNKNOWN`. -/
def AlertSeverity.from_string (value : String) : AlertSeverity :=
  match pyLower value with
  | "unknown" => .UNKNOWN
  | "minor" => .MINOR
  | "moderate" => .MODERATE
  | "severe" => .SEVERE
  | "extreme" => .EXTREME
  | _ => .UNKNOWN

/-- Enum `AlertUrgency` (src/weatherbox/models/alert.py). -/
inductive AlertUrgency where
  | UNKNOWN | FUTURE | EXPECTED | IMMEDIATE
  deriving DecidableEq, Repr, BEq

/-- `AlertUrgency.from_string`: case-insensitive lookup defaulting to
`UNKNOWN`. -/
def AlertUrgency.from_string (value : String) : AlertUrgency :=
  match pyLower value with
  | "unknown" => .UNKNOWN
  | "future" => .FUTURE
  | "expected" => .EXPECTED
  | "immediate" => .IMMEDIATE
  | _ => .UNKNOWN

/-- Enum `AlertCertainty` (src/weatherbox/models/alert.py). -/
inductive AlertCertainty where
  | UNKNOWN | UNLIKELY | POSSIBLE | LIKELY | OBSERVED
  deriving DecidableEq, Repr, BEq

/-- `AlertCertainty.from_string`: case-insensitive lookup defaulting to
`UNKNOWN`. -/
def AlertCertainty.from_string (value : String) : AlertCertainty :=
  match pyLower value with
  | "unknown" => .UNKNOWN
  | "unlikely" => .UNLIKELY
  | "possible" => .POSSIBLE
  | "likely" => .LIKELY
  | "observed" => .OBSERVED
  | _ => .UNKNOWN

/-- The `severity_score` dictionary inside `importance_score`. -/
def severity_score : AlertSeverity → Int
  | .UNKNOWN => 0
  | .MINOR => 1
  | .MODERATE => 2
  | .SEVERE => 3
  | .EXTREME => 4

/-- The `urgency_score` dictionary inside `importance_score`. -/
def urgency_score : AlertUrgency → Int
  | .UNKNOWN => 0
  | .FUTURE => 1
  | .EXPECTED => 2
  | .IMMEDIATE => 3

/-- The `certainty_score` dictionary inside `importance_score`. -/
def certainty_score : AlertCertainty → Int
  | .UNKNOWN => 0
  | .UNLIKELY => 1
  | .POSSIBLE => 2
  | .LIKELY => 3
  | .OBSERVED => 4

/-- Dataclass `WeatherAlert` (src/weatherbox/models/alert.py): these are
exactly the declared fields; note in particular that the dataclass
declares no `nws_headline` field. -/
structure WeatherAlert where
  id : String
  same_codes : List String
  event : String
  headline : String
  description : String
  instruction : Option String
  severity : AlertSeverity
  urgency : AlertUrgency
  certainty : AlertCertainty
  onset : Option PyDatetime
  expires : PyDatetime
  deriving DecidableEq, Repr

/-- Property `WeatherAlert.is_expired`. The code reads the ambient clock
via `datetime.now(timezone.utc)`; the embedding takes that clock reading
as the explicit argument `nowUtc` (a UTC instant, in minutes). -/
def WeatherAlert.is_expired (a : WeatherAlert) (nowUtc : Int) : Bool :=
  decide (nowUtc > a.expires.toUTC.naive)

/-- Property `WeatherAlert.importance_score`. -/
def WeatherAlert.importance_score (a : WeatherAlert) : Int :=
  severity_score a.severity * 100 +
  urgency_score a.urgency * 10 +
  certainty_score a.certainty +
  (if a.certainty = AlertCertainty.OBSERVED then 100
   else if a.certainty = AlertCertainty.LIKELY then 50
   else 0)

/-- The `properties` map of one raw GeoJSON alert feature, typed at the
fields the service reads; a field the raw map lacks is `none`
(`properties.get(key)` with no default), and `affectedZones` is the list
defaulted to `[]`. -/
structure RawProperties where
  id : Option String := none
  event : Option String := none
  headline : Option String := none
  description : Option String := none
  instruction : Option String := none
  severity : Option String := none
  urgency : Option String := none
  certainty : Option String := none
  onset : Option String := none
  expires : Option String := none
  affectedZones : List String := []
  deriving DecidableEq, Repr

/-- One raw feature; `feature.get("properties", {})` is modelled by
storing the (possibly all-`none`) properties map directly. -/
structure RawFeature where
  properties : RawProperties := {}
  deriving DecidableEq, Repr

/-- A parsed alerts-endpoint JSON body: `data.get("features", [])`. -/
structure AlertsData where
  features : List RawFeature := []
  deriving DecidableEq, Repr

/-- A parsed points-endpoint JSON body, typed at the two fields
`get_alerts_for_coordinates` reads from its `properties` map. -/
structure PointsData where
  county : Option String := none
  forecastZone : Option String := none
  deriving DecidableEq, Repr

/-- External collaborators of `WeatherAlertService`, plus the ambient
clock. `alertsGet`/`pointsGet` model `requests.get` + `raise_for_status`
+ `.json()` on the respective endpoint families: any transport, status
or body-parse failure is an `Except.error`. `fromisoformat` models
`datetime.fromisoformat`, returning `none` where Python raises
`ValueError`/`TypeError`. `geocode` models `geocoder.arcgis`: `none`
when the result is not ok. -/
structure ServiceEnv where
  fromisoformat : String → Option PyDatetime
  geocode : String → Option (Int × Int)
  alertsGet : String → Except String AlertsData
  pointsGet : String → Except String PointsData
  nowUtc : Int

/-- `WeatherAlertService.BASE_URL`. -/
def BASE_URL : String := "https://api.weather.gov"

/-- `WeatherAlertService.ALERTS_ENDPOINT`. -/
def ALERTS_ENDPOINT : String := "/alerts/active"

/-- `WeatherAlertService._parse_date`: `None`/empty string is falsy and
yields `none`; otherwise `fromisoformat` is applied to the string with
`"Z"` replaced by `"+00:00"`, a parse failure yielding `none`. -/
def _parse_date (env : ServiceEnv) (date_str : Option String) : Option PyDatetime :=
  match date_str with
  | none => none
  | some s =>
    if s = "" then none
    else env.fromisoformat (pyReplace s "Z" "+00:00")

/-- Loop body of `WeatherAlertService._parse_alerts` (and of the
construction part of `_parse_alerts_from_main_endpoint`): parse the
dates of one feature, skip the record when `expires` is missing or
unparsable, and otherwise build the `WeatherAlert`. -/
def parse_feature (env : ServiceEnv) (same_code : String) (f : RawFeature) :
    Option WeatherAlert :=
  let p := f.properties
  let onset := _parse_date env p.onset
  match _parse_date env p.expires with
  | none => none
  | some expires =>
    some { id := p.id.getD ""
           same_codes := [same_code]
           event := p.event.getD ""
           headline := p.headline.getD ""
           description := p.description.getD ""
           instruction := p.instruction
           severity := AlertSeverity.from_string (p.severity.getD "")
           urgency := AlertUrgency.from_string (p.urgency.getD "")
           certainty := AlertCertainty.from_string (p.certainty.getD "")
           onset := onset
           expires := expires }

/-- `WeatherAlertService._parse_alerts`: the per-feature loop with
`continue` on a rejected record is a `filterMap`. -/
def _parse_alerts (env : ServiceEnv) (data : AlertsData) (same_code : String) :
    List WeatherAlert :=
  data.features.filterMap (parse_feature env same_code)

/-- Python `lstrip("0")`. -/
def lstripZeros (s : String) : String :=
  String.mk (s.toList.dropWhile (fun c => c == '0'))

/-- Python substring test `needle in hay`: the needle is a prefix of some
suffix of the haystack. -/
def strIn (needle hay : String) : Bool :=
  (List.range (hay.length + 1)).any fun i =>
    needle.toList.isPrefixOf (hay.toList.drop i)

/-- The `same_code_formats` list built inside
`_parse_alerts_from_main_endpoint`: the raw code and its case variants,
and for 6-character codes also the state-prefixed zone/county
reformattings, the bare state code, and the zone part with and without
leading zeros. -/
def same_code_formats (same_code : String) : List String :=
  let base := [same_code, pyUpper same_code, pyLower same_code]
  if pyLen same_code = 6 then
    let state_code := pyTake same_code 2
    let zone_code := pyDrop same_code 2
    base ++ [state_code ++ "Z" ++ lstripZeros zone_code,
             state_code ++ "C" ++ lstripZeros zone_code,
             state_code,
             zone_code,
             lstripZeros zone_code]
  else base

/-- The zone identifiers of one feature: the final path segment of each
`affectedZones` URL (Python `zone.split("/")[-1]`; `split` never returns
an empty list, so the `if parts` guard always passes). -/
def zone_ids_of (f : RawFeature) : List String :=
  f.properties.affectedZones.map (fun zone => (pySplit zone '/').getLastD "")

/-- The relevance filter of `_parse_alerts_from_main_endpoint`: a feature
is kept iff some format is a substring of some zone id or some zone id is
a substring of some format (the double `continue` guard, de Morganed). -/
def feature_matches_code (same_code : String) (f : RawFeature) : Bool :=
  let zone_ids := zone_ids_of f
  let formats := same_code_formats same_code
  (formats.any fun fmt => zone_ids.any fun zid => strIn fmt zid) ||
  (formats.any fun fmt => zone_ids.any fun zid => strIn zid fmt)

/-- `WeatherAlertService._parse_alerts_from_main_endpoint`: keep only the
features matching the SAME code, then parse each as in `_parse_alerts`. -/
def _parse_alerts_from_main_endpoint (env : ServiceEnv) (data : AlertsData)
    (same_code : String) : List WeatherAlert :=
  (data.features.filter (feature_matches_code same_code)).filterMap
    (parse_feature env same_code)

/-- The ordered candidate endpoint list of
`_fetch_alerts_for_same_code`: main active-alerts endpoint, then
area/zone/county by raw code, and for 6-character codes also the
state-prefixed zone and county reformattings. -/
def endpoints_to_try (same_code : String) : List String :=
  let base :=
    [BASE_URL ++ ALERTS_ENDPOINT,
     BASE_URL ++ ALERTS_ENDPOINT ++ "/area/" ++ same_code,
     BASE_URL ++ ALERTS_ENDPOINT ++ "/zone/" ++ same_code,
     BASE_URL ++ ALERTS_ENDPOINT ++ "/county/" ++ same_code]
  if pyLen same_code = 6 then
    let state_code := pyTake same_code 2
    let zone_code := pyDrop same_code 2
    let formatted_zone := state_code ++ "Z" ++ lstripZeros zone_code
    let formatted_county := state_code ++ "C" ++ lstripZeros zone_code
    base ++ [BASE_URL ++ ALERTS_ENDPOINT ++ "/zone/" ++ formatted_zone,
             BASE_URL ++ ALERTS_ENDPOINT ++ "/county/" ++ formatted_county]
  else base

/-- The `for url in endpoints_to_try` loop of
`_fetch_alerts_for_same_code`: return the parsed body of the first
successful request (the main endpoint dispatching to the filtering
parser), remember the last error otherwise; after exhaustion re-raise
the last error, or return `[]` when no attempt raised. -/
def fetch_loop (env : ServiceEnv) (same_code : String) :
    List String → Option String → Except String (List WeatherAlert)
  | [], none => .ok []
  | [], some e => .error e
  | url :: rest, _ =>
    match env.alertsGet url with
    | .ok data =>
      if url = BASE_URL ++ ALERTS_ENDPOINT then
        .ok (_parse_alerts_from_main_endpoint env data same_code)
      else
        .ok (_parse_alerts env data same_code)
    | .error e => fetch_loop env same_code rest (some e)

/-- `WeatherAlertService._fetch_alerts_for_same_code`. -/
def _fetch_alerts_for_same_code (env : ServiceEnv) (same_code : String) :
    Except String (List WeatherAlert) :=
  fetch_loop env same_code (endpoints_to_try same_code) none

/-- `WeatherAlertService.get_alerts_for_same_codes`: per-code fetch with
each failure caught and logged, successful results concatenated. -/
def get_alerts_for_same_codes (env : ServiceEnv) (same_codes : List String) :
    List WeatherAlert :=
  same_codes.foldl
    (fun all_alerts same_code =>
      match _fetch_alerts_for_same_code env same_code with
      | .ok alerts => all_alerts ++ alerts
      | .error _ => all_alerts)
    []

/-- `WeatherAlertService.get_coordinates`, instrumented: the second
component is the trace of location strings sent to the external
geocoding capability by this one call (always exactly one — the service
keeps no cache). A geocoding failure is the raised
`ValueError`. -/
def get_coordinates_run (env : ServiceEnv) (city state : String) :
    Except String (Int × Int) × List String :=
  let location := city ++ ", " ++ state
  match env.geocode location with
  | none => (.error ("Could not determine coordinates for " ++ location), [location])
  | some g => (.ok g, [location])

/-- `WeatherAlertService.get_coordinates` (result only). -/
def get_coordinates (env : ServiceEnv) (city state : String) :
    Except String (Int × Int) :=
  (get_coordinates_run env city state).1

/-- `WeatherAlertService.get_alerts_for_coordinates`: points lookup, then
county- and zone-scoped alert fetches whose individual failures are each
caught; a points failure (or missing/falsy county or zone treated before
any fetch) follows the code: missing county/zone returns `ok []`, a
points transport failure re-raises. -/
def get_alerts_for_coordinates (env : ServiceEnv) (latitude longitude : Int) :
    Except String (List WeatherAlert) :=
  match env.pointsGet (BASE_URL ++ "/points/" ++ toString latitude ++ "," ++ toString longitude) with
  | .error e => .error e
  | .ok points_data =>
    let county := points_data.county.getD ""
    let zone := points_data.forecastZone.getD ""
    if county = "" ∨ zone = "" then
      .ok []
    else
      let county_id := (pySplit county '/').getLastD ""
      let zone_id := (pySplit zone '/').getLastD ""
      let county_alerts :=
        match env.alertsGet (BASE_URL ++ ALERTS_ENDPOINT ++ "/zone/" ++ county_id) with
        | .ok county_data => _parse_alerts env county_data ("County: " ++ county_id)
        | .error _ => []
      let zone_alerts :=
        match env.alertsGet (BASE_URL ++ ALERTS_ENDPOINT ++ "/zone/" ++ zone_id) with
        | .ok zone_data => _parse_alerts env zone_data ("Zone: " ++ zone_id)
        | .error _ => []
      .ok (county_alerts ++ zone_alerts)

/-- `WeatherAlertService.get_alerts_for_location`: the whole body sits in
a `try` whose `except Exception` handler returns `[]`, so every failure
of coordinate resolution or of the coordinate fetch — including the
`ValueError` raised by `get_coordinates` — is converted to an empty
list; the result is always `ok`. -/
def get_alerts_for_location (env : ServiceEnv) (city state : String) :
    Except String (List WeatherAlert) :=
  let body : Except String (List WeatherAlert) :=
    match get_coordinates env city state with
    | .error e => .error e
    | .ok (latitude, longitude) => get_alerts_for_coordinates env latitude longitude
  match body with
  | .error _ => .ok []
  | .ok alerts => .ok alerts

/-- Python `max(xs, key=key)` on a nonempty list: fold keeping the
current element unless a later one has a strictly greater key, so ties
keep the earliest element. -/
def py_max_by (key : WeatherAlert → Int) (x : WeatherAlert)
    (xs : List WeatherAlert) : WeatherAlert :=
  xs.foldl (fun best a => if key a > key best then a else best) x

/-- The local `alerts` of `get_most_important_alerts_for_location`: the
value of `get_alerts_for_location` (which, per its `except` handler, is
always `ok`; the `error` arm is unreachable). -/
def fetched_alerts_for_location (env : ServiceEnv) (city state : String) :
    List WeatherAlert :=
  match get_alerts_for_location env city state with
  | .ok l => l
  | .error _ => []

/-- The local `active_alerts` of `get_most_important_alerts_for_location`:
the fetched alerts with the expired ones filtered out. -/
def active_alerts_for_location (env : ServiceEnv) (city state : String) :
    List WeatherAlert :=
  (fetched_alerts_for_location env city state).filter
    (fun alert => !alert.is_expired env.nowUtc)

/-- `WeatherAlertService.get_most_important_alerts_for_location`:
`None` on an empty active list, else `max(active_alerts, key=lambda
alert: alert.importance_score)`. -/
def get_most_important_alerts_for_location (env : ServiceEnv) (city state : String) :
    Option WeatherAlert :=
  match active_alerts_for_location env city state with
  | [] => none
  | x :: xs => some (py_max_by WeatherAlert.importance_score x xs)

/-- A Python dict from SAME code to optional alert, as an ordered
association list with unique keys. -/
abbrev ResultMap := List (String × Option WeatherAlert)

/-- Dict lookup `result[code]` (as an option; `none` models KeyError). -/
def mapGet : ResultMap → String → Option (Option WeatherAlert)
  | [], _ => none
  | (k, v) :: rest, code => if k = code then some v else mapGet rest code

/-- Dict update `result[code] = alert` for an already-present key. -/
def mapSet (m : ResultMap) (code : String) (v : Option WeatherAlert) : ResultMap :=
  m.map fun kv => if kv.1 = code then (kv.1, v) else kv

/-- The dict comprehension `{code: None for code in same_codes}`:
first-occurrence key order, later duplicates overwrite (with the same
`None`). -/
def init_result (same_codes : List String) : ResultMap :=
  same_codes.foldl
    (fun m code => if m.any (fun kv => kv.1 = code) then m else m ++ [(code, none)])
    []

/-- Inner update of `get_most_important_alerts` for one non-expired alert
and one of its codes: replace the current entry when it is `None` or the
new alert has a strictly greater importance score. -/
def consider_alert (same_codes : List String)
    (result : ResultMap) (alert : WeatherAlert) (code : String) : ResultMap :=
  if code ∈ same_codes then
    match mapGet result code with
    | some (some current_alert) =>
      if alert.importance_score > current_alert.importance_score then
        mapSet result code (some alert)
      else result
    | some none => mapSet result code (some alert)
    | none => result
  else result

/-- `WeatherAlertService.get_most_important_alerts`: batch-fetch all
codes, then fold the non-expired alerts into the per-code best map. -/
def get_most_important_alerts (env : ServiceEnv) (same_codes : List String) :
    ResultMap :=
  let all_alerts := get_alerts_for_same_codes env same_codes
  all_alerts.foldl
    (fun result alert =>
      if alert.is_expired env.nowUtc then result
      else alert.same_codes.foldl
        (fun result code => consider_alert same_codes result alert code)
        result)
    (init_result same_codes)

/-- A Python attribute value as it appears in the API response dict. -/
inductive PyVal where
  | vStr (s : String)
  | vOptStr (s : Option String)
  | vInt (n : Int)
  | vListStr (l : List String)
  | vSeverity (s : AlertSeverity)
  | vUrgency (u : AlertUrgency)
  | vCertainty (c : AlertCertainty)
  | vDatetime (d : PyDatetime)
  | vOptDatetime (d : Option PyDatetime)
  deriving DecidableEq, Repr

/-- Python attribute lookup `getattr(alert, name)` over the fields the
`WeatherAlert` dataclass declares; `none` models the `AttributeError`
raised for any other name. -/
def WeatherAlert.getAttr (a : WeatherAlert) : String → Option PyVal
  | "id" => some (.vStr a.id)
  | "same_codes" => some (.vListStr a.same_codes)
  | "event" => some (.vStr a.event)
  | "headline" => some (.vStr a.headline)
  | "description" => some (.vStr a.description)
  | "instruction" => some (.vOptStr a.instruction)
  | "severity" => some (.vSeverity a.severity)
  | "urgency" => some (.vUrgency a.urgency)
  | "certainty" => some (.vCertainty a.certainty)
  | "onset" => some (.vOptDatetime a.onset)
  | "expires" => some (.vDatetime a.expires)
  | _ => none

/-- Enum member `.name` for `AlertSeverity`. -/
def AlertSeverity.name : AlertSeverity → String
  | .UNKNOWN => "UNKNOWN"
  | .MINOR => "MINOR"
  | .MODERATE => "MODERATE"
  | .SEVERE => "SEVERE"
  | .EXTREME => "EXTREME"

/-- Enum member `.name` for `AlertUrgency`. -/
def AlertUrgency.name : AlertUrgency → String
  | .UNKNOWN => "UNKNOWN"
  | .FUTURE => "FUTURE"
  | .EXPECTED => "EXPECTED"
  | .IMMEDIATE => "IMMEDIATE"

/-- Enum member `.name` for `AlertCertainty`. -/
def AlertCertainty.name : AlertCertainty → String
  | .UNKNOWN => "UNKNOWN"
  | .UNLIKELY => "UNLIKELY"
  | .POSSIBLE => "POSSIBLE"
  | .LIKELY => "LIKELY"
  | .OBSERVED => "OBSERVED"

/-- `severity_score_map.get(name, 0)` of src/api.py. -/
def api_severity_score_map (name : String) : Int :=
  match name with
  | "UNKNOWN" => 0 | "MINOR" => 1 | "MODERATE" => 2 | "SEVERE" => 3
  | "EXTREME" => 4 | _ => 0

/-- `urgency_score_map.get(name, 0)` of src/api.py. -/
def api_urgency_score_map (name : String) : Int :=
  match name with
  | "UNKNOWN" => 0 | "FUTURE" => 1 | "EXPECTED" => 2 | "IMMEDIATE" => 3
  | _ => 0

/-- `certainty_score_map.get(name, 0)` of src/api.py. -/
def api_certainty_score_map (name : String) : Int :=
  match name with
  | "UNKNOWN" => 0 | "UNLIKELY" => 1 | "POSSIBLE" => 2 | "LIKELY" => 3
  | "OBSERVED" => 4 | _ => 0

/-- Attribute read `alert.attr` inside the response-dict literal of
src/api.py: a missing attribute is an `AttributeError` carrying the
attribute name. -/
def readAttr (alert : WeatherAlert) (attr : String) : Except String PyVal :=
  match alert.getAttr attr with
  | some v => .ok v
  | none => .error attr

/-- Outcome of the `/weather-alert/{state}/{city}` endpoint of
src/api.py: a JSON response, the HTTPException(404) produced from a
caught `ValueError`, or an exception the `except ValueError` handler
does not catch (the `AttributeError` from a missing alert attribute). -/
inductive ApiOutcome where
  | ok (response : List (String × PyVal))
  | httpNotFound (detail : String)
  | uncaughtAttributeError (attr : String)
  deriving DecidableEq, Repr

/-- `get_weather_alert` of src/api.py: resolve coordinates (a raised
`ValueError` becomes a 404), select the most important alert, and when
one exists extend the response with its fields — each value of the
`response.update({...})` literal being an attribute read on `alert`, in
source order, ending with `alert.nws_headline`. -/
def get_weather_alert (env : ServiceEnv) (state city : String) : ApiOutcome :=
  match get_coordinates env city state with
  | .error e => .httpNotFound e
  | .ok (latitude, longitude) =>
    let base : List (String × PyVal) :=
      [("city", .vStr city), ("state", .vStr state),
       ("latitude", .vInt latitude), ("longitude", .vInt longitude)]
    match get_most_important_alerts_for_location env city state with
    | none => .ok base
    | some alert =>
      let update : Except String (List (String × PyVal)) := do
        let headline ← readAttr alert "headline"
        let event ← readAttr alert "event"
        let _severity ← readAttr alert "severity"
        let _urgency ← readAttr alert "urgency"
        let _certainty ← readAttr alert "certainty"
        let _expires ← readAttr alert "expires"
        let description ← readAttr alert "description"
        let instruction ← readAttr alert "instruction"
        let nws_headline ← readAttr alert "nws_headline"
        pure [("headline", headline), ("event", event),
              ("severity", .vStr alert.severity.name),
              ("severity_score", .vInt (api_severity_score_map alert.severity.name)),
              ("urgency", .vStr alert.urgency.name),
              ("urgency_score", .vInt (api_urgency_score_map alert.urgency.name)),
              ("certainty", .vStr alert.certainty.name),
              ("certainty_score", .vInt (api_certainty_score_map alert.certainty.name)),
              ("expires", .vDatetime alert.expires.toUTC),
              ("description", description), ("instruction", instruction),
              ("nws_headline", nws_headline)]
      match update with
      | .ok fields => .ok (base ++ fields)
      | .error attr => .uncaughtAttributeError attr

/-!
Spec-side reference definitions. The following definitions are written
from the specification text, not from the source; each theorem that uses
one compares it against the embedded source definitions.
-/

/-- Spec-side: the ordinal position of a severity in its enumeration
(`UNKNOWN` = 0 upward). -/
def severityOrdinal (s : AlertSeverity) : Int :=
  (([.UNKNOWN, .MINOR, .MODERATE, .SEVERE, .EXTREME] : List AlertSeverity).indexOf s : Nat)

/-- Spec-side: the ordinal position of an urgency in its enumeration. -/
def urgencyOrdinal (u : AlertUrgency) : Int :=
  (([.UNKNOWN, .FUTURE, .EXPECTED, .IMMEDIATE] : List AlertUrgency).indexOf u : Nat)

/-- Spec-side: the ordinal position of a certainty in its enumeration. -/
def certaintyOrdinal (c : AlertCertainty) : Int :=
  (([.UNKNOWN, .UNLIKELY, .POSSIBLE, .LIKELY, .OBSERVED] : List AlertCertainty).indexOf c : Nat)

/-- Spec-side: `certaintyBonus` = 100 for `OBSERVED`, 50 for `LIKELY`,
else 0. -/
def certaintyBonus (c : AlertCertainty) : Int :=
  match c with
  | .OBSERVED => 100
  | .LIKELY => 50
  | _ => 0

/-- Spec-side: the element of a list with maximum key, ties broken by
whichever is encountered first in iteration order. -/
def first_max_spec (key : WeatherAlert → Int) : List WeatherAlert → Option WeatherAlert
  | [] => none
  | x :: xs =>
    match first_max_spec key xs with
    | none => some x
    | some y => if key y > key x then some y else some x

/-!
Proof-side reference functions for `get_most_important_alerts`, and
concrete inputs used by witnesses and counterexamples.
-/

/-- One step of the per-code best-alert selection performed by
`get_most_important_alerts` for a fixed code: skip expired alerts and
alerts not carrying the code, otherwise keep the strictly more important
of the current best and the new alert (ties keeping the current one). -/
def bestStep (nowUtc : Int) (code : String) (current : Option WeatherAlert)
    (alert : WeatherAlert) : Option WeatherAlert :=
  if alert.is_expired nowUtc then current
  else if code ∈ alert.same_codes then
    match current with
    | none => some alert
    | some b => if alert.importance_score > b.importance_score then some alert else current
  else current

/-- The per-code projection of `get_most_important_alerts`: the best
non-expired alert carrying a given code, over a list of alerts in
order. -/
def best_for_code (nowUtc : Int) (code : String) (alerts : List WeatherAlert) :
    Option WeatherAlert :=
  alerts.foldl (bestStep nowUtc code) none

/-- Success test for a modelled HTTP request. -/
def httpOk (r : Except String AlertsData) : Bool :=
  match r with
  | .ok _ => true
  | .error _ => false

/-- The replacement rule of `get_most_important_alerts` for one already
relevant, non-expired alert: replace the current best when there is none
yet or the new alert is strictly more important. -/
def bump (current : Option WeatherAlert) (alert : WeatherAlert) : Option WeatherAlert :=
  match current with
  | none => some alert
  | some b => if alert.importance_score > b.importance_score then some alert else current

/-- Concrete stand-in for `datetime.fromisoformat`, defined on the two
date strings the demo features carry (already `Z`-rewritten to a
`+00:00` offset by `_parse_date`). -/
def demoIso (s : String) : Option PyDatetime :=
  if s = "2030-01-01T00:00+00:00" then some (utcMidnight 2030 1 1)
  else if s = "2020-01-02T00:00+00:00" then some (utcMidnight 2020 1 2)
  else none

/-- The demo clock reading: 2025-06-01T00:00Z as a UTC instant. -/
def demoNow : Int := daysFromCivil 2025 6 1 * 1440

/-- A well-formed raw feature whose expiry (2030) lies after `demoNow`. -/
def demoFeatureGood : RawFeature :=
  { properties :=
      { id := some "alert-1"
        event := some "Flood Advisory"
        headline := some "Flood Advisory for the county"
        severity := some "Minor"
        urgency := some "Expected"
        certainty := some "Likely"
        expires := some "2030-01-01T00:00Z" } }

/-- A well-formed raw feature of higher importance whose expiry (2020)
lies before `demoNow`, so it is always filtered out as expired. -/
def demoFeatureSevereExpired : RawFeature :=
  { properties :=
      { id := some "alert-2"
        event := some "Tornado Warning"
        severity := some "Severe"
        urgency := some "Immediate"
        certainty := some "Observed"
        expires := some "2020-01-02T00:00Z" } }

/-- A raw feature carrying no `expires` field at all. -/
def demoFeatureNoExpiry : RawFeature :=
  { properties := { id := some "alert-3", event := some "Mystery" } }

/-- The alert the normalizer builds from `demoFeatureGood` under the
county label of the demo points lookup. -/
def demoAlertCounty : WeatherAlert :=
  { id := "alert-1", same_codes := ["County: TXC453"], event := "Flood Advisory"
    headline := "Flood Advisory for the county", description := ""
    instruction := none, severity := .MINOR, urgency := .EXPECTED
    certainty := .LIKELY, onset := none, expires := utcMidnight 2030 1 1 }

/-- The alert the normalizer builds from `demoFeatureGood` under the raw
SAME code 045019. -/
def demoAlert045 : WeatherAlert :=
  { id := "alert-1", same_codes := ["045019"], event := "Flood Advisory"
    headline := "Flood Advisory for the county", description := ""
    instruction := none, severity := .MINOR, urgency := .EXPECTED
    certainty := .LIKELY, onset := none, expires := utcMidnight 2030 1 1 }

/-- Demo environment for the location pipeline: geocoding resolves only
`"Austin, TX"`; the points lookup yields a county and a forecast zone;
the county-scoped fetch returns one active and one expired alert, the
zone-scoped fetch returns none. -/
def demoEnv : ServiceEnv :=
  { fromisoformat := demoIso
    geocode := fun location => if location = "Austin, TX" then some (30, -97) else none
    alertsGet := fun url =>
      if url = BASE_URL ++ ALERTS_ENDPOINT ++ "/zone/TXC453" then
        .ok { features := [demoFeatureGood, demoFeatureSevereExpired] }
      else if url = BASE_URL ++ ALERTS_ENDPOINT ++ "/zone/TXZ192" then
        .ok { features := [] }
      else .error "unreachable endpoint"
    pointsGet := fun url =>
      if url = BASE_URL ++ "/points/30,-97" then
        .ok { county := some "https://api.weather.gov/zones/county/TXC453"
              forecastZone := some "https://api.weather.gov/zones/forecast/TXZ192" }
      else .error "no such point"
    nowUtc := demoNow }

/-- Demo environment in which geocoding resolves nothing and every HTTP
call fails. -/
def demoEnvNoGeo : ServiceEnv :=
  { fromisoformat := fun _ => none
    geocode := fun _ => none
    alertsGet := fun _ => .error "upstream down"
    pointsGet := fun _ => .error "upstream down"
    nowUtc := demoNow }

/-- Demo environment for the SAME-code fetch cascade: only the
area-scoped endpoint for code 045019 answers (with one active and one
expired alert); every other URL fails with an error naming the URL. -/
def demoEnvFetch : ServiceEnv :=
  { fromisoformat := demoIso
    geocode := fun _ => none
    alertsGet := fun url =>
      if url = BASE_URL ++ ALERTS_ENDPOINT ++ "/area/045019" then
        .ok { features := [demoFeatureGood, demoFeatureSevereExpired] }
      else .error ("fail: " ++ url)
    pointsGet := fun _ => .error "upstream down"
    nowUtc := demoNow }

/-- Demo environment in which every alerts endpoint fails with an error
naming the URL. -/
def demoEnvAllFail : ServiceEnv :=
  { fromisoformat := fun _ => none
    geocode := fun _ => none
    alertsGet := fun url => .error ("fail: " ++ url)
    pointsGet := fun _ => .error "upstream down"
    nowUtc := demoNow }

/-! Helper lemmas relating the score dictionaries to the spec-side
ordinals, and monotonicity of each contribution. -/

theorem severity_score_eq_ordinal (s : AlertSeverity) :
    severity_score s = severityOrdinal s := by
  cases s <;> rfl

theorem urgency_score_eq_ordinal (u : AlertUrgency) :
    urgency_score u = urgencyOrdinal u := by
  cases u <;> rfl

theorem certainty_score_eq_ordinal (c : AlertCertainty) :
    certainty_score c = certaintyOrdinal c := by
  cases c <;> rfl

theorem ite_certainty_bonus (c : AlertCertainty) :
    (if c = AlertCertainty.OBSERVED then (100 : Int)
     else if c = AlertCertainty.LIKELY then 50 else 0) = certaintyBonus c := by
  cases c <;> rfl

theorem severity_score_mono (s t : AlertSeverity)
    (h : severityOrdinal s ≤ severityOrdinal t) :
    severity_score s ≤ severity_score t := by
  cases s <;> cases t <;> revert h <;> decide

theorem urgency_score_mono (u v : AlertUrgency)
    (h : urgencyOrdinal u ≤ urgencyOrdinal v) :
    urgency_score u ≤ urgency_score v := by
  cases u <;> cases v <;> revert h <;> decide

theorem certainty_contrib_mono (c d : AlertCertainty)
    (h : certaintyOrdinal c ≤ certaintyOrdinal d) :
    certainty_score c + certaintyBonus c ≤ certainty_score d + certaintyBonus d := by
  cases c <;> cases d <;> revert h <;> decide

/-- C9: `is_expired` is true iff the reference time, normalized to UTC,
is strictly greater than `expires` normalized to UTC, where a
timezone-naive `expires` is treated as UTC; with expires
2020-01-02T00:00Z and now 2023-01-01T00:00Z it is true, and with expires
2025-12-31T00:00Z and the same now it is false. -/
theorem C9_is_expired_strict_utc_comparison :
    (∀ (a : WeatherAlert) (nowUtc : Int),
      a.is_expired nowUtc = true ↔ nowUtc > a.expires.toUTC.naive) ∧
    (∀ n : Int,
      PyDatetime.toUTC { naive := n, tz := none } = { naive := n, tz := some 0 }) ∧
    (∀ n off : Int,
      PyDatetime.toUTC { naive := n, tz := some off } =
        { naive := n - off, tz := some 0 }) ∧
    ({ demoAlertCounty with expires := utcMidnight 2020 1 2 }).is_expired
      (daysFromCivil 2023 1 1 * 1440) = true ∧
    ({ demoAlertCounty with expires := utcMidnight 2025 12 31 }).is_expired
      (daysFromCivil 2023 1 1 * 1440) = false := by
  refine ⟨fun a nowUtc => ?_, fun n => rfl, fun n off => rfl, by decide, by decide⟩
  simp [WeatherAlert.is_expired]

/-- C4: `importance_score` equals `severityRank*100 + urgencyRank*10 +
certaintyRank + certaintyBonus` with ranks the ordinal enum positions
and bonus 100 for OBSERVED / 50 for LIKELY / 0 otherwise;
MINOR/EXPECTED/LIKELY scores 173, SEVERE/IMMEDIATE/OBSERVED scores 434,
and the score is monotonic in each of the three inputs holding the
others fixed. -/
theorem C4_importance_score_formula :
    (∀ a : WeatherAlert,
      a.importance_score =
        severityOrdinal a.severity * 100 + urgencyOrdinal a.urgency * 10 +
          certaintyOrdinal a.certainty + certaintyBonus a.certainty) ∧
    demoAlertCounty.importance_score = 173 ∧
    ({ demoAlertCounty with
        severity := AlertSeverity.SEVERE
        urgency := AlertUrgency.IMMEDIATE
        certainty := AlertCertainty.OBSERVED } : WeatherAlert).importance_score = 434 ∧
    (∀ (a : WeatherAlert) (s : AlertSeverity),
      severityOrdinal a.severity ≤ severityOrdinal s →
      a.importance_score ≤ ({ a with severity := s }).importance_score) ∧
    (∀ (a : WeatherAlert) (u : AlertUrgency),
      urgencyOrdinal a.urgency ≤ urgencyOrdinal u →
      a.importance_score ≤ ({ a with urgency := u }).importance_score) ∧
    (∀ (a : WeatherAlert) (c : AlertCertainty),
      certaintyOrdinal a.certainty ≤ certaintyOrdinal c →
      a.importance_score ≤ ({ a with certainty := c }).importance_score) := by
  refine ⟨fun a => ?_, by decide, by decide, ?_, ?_, ?_⟩
  · simp only [WeatherAlert.importance_score, severity_score_eq_ordinal,
      urgency_score_eq_ordinal, certainty_score_eq_ordinal, ite_certainty_bonus]
  · rintro ⟨i, sc, ev, hl, de, ins, sev, urg, cer, ons, ex⟩ s h
    have hs := severity_score_mono sev s h
    simp only [WeatherAlert.importance_score]
    omega
  · rintro ⟨i, sc, ev, hl, de, ins, sev, urg, cer, ons, ex⟩ u h
    have hu := urgency_score_mono urg u h
    simp only [WeatherAlert.importance_score]
    omega
  · rintro ⟨i, sc, ev, hl, de, ins, sev, urg, cer, ons, ex⟩ c h
    have hc := certainty_contrib_mono cer c h
    simp only [WeatherAlert.importance_score, ite_certainty_bonus]
    omega

/-- C4 witness: monotonicity instantiated at the MINOR demo alert raised
to SEVERE. -/
theorem C4_importance_score_formula_witness :
    severityOrdinal demoAlertCounty.severity ≤ severityOrdinal AlertSeverity.SEVERE ∧
    demoAlertCounty.importance_score ≤
      ({ demoAlertCounty with severity := AlertSeverity.SEVERE }).importance_score :=
  ⟨by decide,
   C4_importance_score_formula.2.2.2.1 demoAlertCounty AlertSeverity.SEVERE (by decide)⟩

/-- C2 counterexample: the claimed coordinate cache does not exist.
`get_coordinates` holds no state at all, so a repeated resolve call for
`"Austin, TX"` is the very same computation as the first: the first call
succeeds (the key would be cached if a cache existed), yet the call for
that key still issues exactly one external geocoding request — not the
zero requests the claim asserts for an already-cached key. -/
theorem C2_counterexample_no_cache :
    (get_coordinates_run demoEnv "Austin" "TX").1 = .ok (30, -97) ∧
    (get_coordinates_run demoEnv "Austin" "TX").2 = ["Austin, TX"] :=
  ⟨rfl, rfl⟩

/-- C2 amended: `get_coordinates` keeps no cache; every resolve call,
repeated or not, issues exactly one external geocoding request for the
key "{city}, {state}", returns the geocoded pair on success and raises
ValueError on failure. -/
theorem C2_every_call_geocodes (env : ServiceEnv) (city state : String) :
    (get_coordinates_run env city state).2 = [city ++ ", " ++ state] ∧
    (env.geocode (city ++ ", " ++ state) = none →
      get_coordinates env city state =
        .error ("Could not determine coordinates for " ++ (city ++ ", " ++ state))) ∧
    (∀ g, env.geocode (city ++ ", " ++ state) = some g →
      get_coordinates env city state = .ok g) := by
  refine ⟨?_, fun h => ?_, fun g h => ?_⟩
  · cases h : env.geocode (city ++ ", " ++ state) <;>
      simp [get_coordinates_run, h]
  · simp [get_coordinates, get_coordinates_run, h]
  · simp [get_coordinates, get_coordinates_run, h]

/-- C2 witness: in the environment whose geocoder resolves nothing, the
resolver raises the ValueError naming the location. -/
theorem C2_every_call_geocodes_witness :
    get_coordinates demoEnvNoGeo "Austin" "TX" =
      .error ("Could not determine coordinates for " ++ ("Austin" ++ ", " ++ "TX")) :=
  (C2_every_call_geocodes demoEnvNoGeo "Austin" "TX").2.1 rfl

/-- C1 counterexample: a coordinate-resolution failure does not
propagate out of `get_alerts_for_location` — the `except Exception`
handler also catches the ValueError raised by `get_coordinates`, and
the pipeline returns an ordinary empty list instead. -/
theorem C1_counterexample_geocode_failure_swallowed :
    get_coordinates demoEnvNoGeo "Springfield" "XX" =
      .error ("Could not determine coordinates for " ++ ("Springfield" ++ ", " ++ "XX")) ∧
    get_alerts_for_location demoEnvNoGeo "Springfield" "XX" = .ok [] :=
  ⟨rfl, rfl⟩

/-- C1 amended: `get_alerts_for_location` never raises; it degrades to
an empty alert list on every failure — an alert-fetch failure and also
the coordinate-resolution ValueError, which is swallowed like any other
exception (the ValueError reaches the end user only because the API
layer calls `get_coordinates` directly, before the pipeline). -/
theorem C1_all_failures_degrade_to_empty (env : ServiceEnv) (city state : String) :
    (∃ alerts, get_alerts_for_location env city state = .ok alerts) ∧
    (∀ e, get_coordinates env city state = .error e →
      get_alerts_for_location env city state = .ok []) ∧
    (∀ latitude longitude, get_coordinates env city state = .ok (latitude, longitude) →
      ∀ e, get_alerts_for_coordinates env latitude longitude = .error e →
        get_alerts_for_location env city state = .ok []) ∧
    (∀ latitude longitude alerts,
      get_coordinates env city state = .ok (latitude, longitude) →
      get_alerts_for_coordinates env latitude longitude = .ok alerts →
        get_alerts_for_location env city state = .ok alerts) := by
  refine ⟨?_, fun e h => ?_, fun la lo h e h2 => ?_, fun la lo alerts h h2 => ?_⟩
  · unfold get_alerts_for_location
    rcases hco : get_coordinates env city state with e | ⟨la, lo⟩
    · exact ⟨[], by simp [hco]⟩
    · rcases hal : get_alerts_for_coordinates env la lo with e2 | alerts
      · exact ⟨[], by simp [hco, hal]⟩
      · exact ⟨alerts, by simp [hco, hal]⟩
  · simp [get_alerts_for_location, h]
  · simp [get_alerts_for_location, h, h2]
  · simp [get_alerts_for_location, h, h2]

/-- C1 witness: the amended behavior at a concrete failing geocode. -/
theorem C1_all_failures_degrade_to_empty_witness :
    get_alerts_for_location demoEnvNoGeo "Paris" "TX" = .ok [] :=
  (C1_all_failures_degrade_to_empty demoEnvNoGeo "Paris" "TX").2.1
    ("Could not determine coordinates for " ++ ("Paris" ++ ", " ++ "TX")) rfl

/-- C6: the `WeatherAlert` dataclass declares no `nws_headline`
attribute and the normalizer never extracts `parameters.NWSheadline`,
yet src/api.py reads `alert.nws_headline` when building the extended
response; on any request that finds an active alert the endpoint
therefore dies with an uncaught AttributeError instead of returning the
response the spec describes. -/
theorem C6_nws_headline_attribute_missing :
    (∀ a : WeatherAlert, a.getAttr "nws_headline" = none) ∧
    get_weather_alert demoEnv "TX" "Austin" =
      .uncaughtAttributeError "nws_headline" :=
  ⟨fun a => rfl, by decide⟩

/-! Helper lemmas about the normalizer. -/

theorem parse_feature_none_of_no_expires (env : ServiceEnv) (same_code : String)
    (f : RawFeature) (h : _parse_date env f.properties.expires = none) :
    parse_feature env same_code f = none := by
  simp [parse_feature, h]

theorem parse_feature_some_shape (env : ServiceEnv) (same_code : String)
    (f : RawFeature) (a : WeatherAlert) (h : parse_feature env same_code f = some a) :
    a.same_codes = [same_code] ∧
      _parse_date env f.properties.expires = some a.expires := by
  revert h
  unfold parse_feature
  cases hd : _parse_date env f.properties.expires with
  | none => simp [hd]
  | some e =>
    simp only [hd, Option.some.injEq]
    intro h
    subst h
    exact ⟨rfl, rfl⟩

/-- C5: a feature whose properties lack a parsable `expires` never
appears in the normalizer output (in either parser), its rejection never
aborts the rest of the batch, and every produced alert records the
parsed `expires` of its source feature. -/
theorem C5_missing_expires_rejected_not_aborting (env : ServiceEnv)
    (data : AlertsData) (same_code : String) :
    (∀ f : RawFeature, _parse_date env f.properties.expires = none →
      parse_feature env same_code f = none) ∧
    (∀ (l₁ l₂ : List RawFeature) (f : RawFeature),
      _parse_date env f.properties.expires = none →
      _parse_alerts env { features := l₁ ++ f :: l₂ } same_code =
        _parse_alerts env { features := l₁ ++ l₂ } same_code) ∧
    (∀ a ∈ _parse_alerts env data same_code, ∃ f ∈ data.features,
      parse_feature env same_code f = some a ∧
      _parse_date env f.properties.expires = some a.expires) ∧
    (∀ a ∈ _parse_alerts_from_main_endpoint env data same_code,
      ∃ f ∈ data.features, _parse_date env f.properties.expires = some a.expires) := by
  refine ⟨fun f h => parse_feature_none_of_no_expires env same_code f h,
    fun l₁ l₂ f h => ?_, fun a ha => ?_, fun a ha => ?_⟩
  · have hf := parse_feature_none_of_no_expires env same_code f h
    simp [_parse_alerts, List.filterMap_append, List.filterMap_cons, hf]
  · rw [_parse_alerts, List.mem_filterMap] at ha
    obtain ⟨f, hf, hp⟩ := ha
    exact ⟨f, hf, hp, (parse_feature_some_shape env same_code f a hp).2⟩
  · rw [_parse_alerts_from_main_endpoint, List.mem_filterMap] at ha
    obtain ⟨f, hf, hp⟩ := ha
    exact ⟨f, (List.mem_filter.mp hf).1,
      (parse_feature_some_shape env same_code f a hp).2⟩

/-- C5 witness: dropping the expiry-less demo feature leaves the rest of
the batch untouched. -/
theorem C5_missing_expires_rejected_not_aborting_witness :
    _parse_alerts demoEnv { features := [demoFeatureGood, demoFeatureNoExpiry] } "C" =
      _parse_alerts demoEnv { features := [demoFeatureGood] } "C" :=
  (C5_missing_expires_rejected_not_aborting demoEnv
      { features := [demoFeatureGood, demoFeatureNoExpiry] } "C").2.1
    [demoFeatureGood] [] demoFeatureNoExpiry rfl

/-- C10: every alert either parser constructs carries `same_codes` equal
to the one-element list holding exactly the identifier the fetch was
performed under, and the coordinate path labels that identifier
"County: {id}" or "Zone: {id}"; no normalized alert carries zero or
more than one area code. -/
theorem C10_singleton_same_codes :
    (∀ (env : ServiceEnv) (data : AlertsData) (same_code : String),
      ∀ a ∈ _parse_alerts env data same_code, a.same_codes = [same_code]) ∧
    (∀ (env : ServiceEnv) (data : AlertsData) (same_code : String),
      ∀ a ∈ _parse_alerts_from_main_endpoint env data same_code,
        a.same_codes = [same_code]) ∧
    (∀ (env : ServiceEnv) (latitude longitude : Int) (alerts : List WeatherAlert),
      get_alerts_for_coordinates env latitude longitude = .ok alerts →
      ∀ a ∈ alerts,
        ((∃ county_id, a.same_codes = ["County: " ++ county_id]) ∨
         (∃ zone_id, a.same_codes = ["Zone: " ++ zone_id])) ∧
        a.same_codes.length = 1) := by
  have hparse : ∀ (env : ServiceEnv) (data : AlertsData) (same_code : String),
      ∀ a ∈ _parse_alerts env data same_code, a.same_codes = [same_code] := by
    intro env data same_code a ha
    rw [_parse_alerts, List.mem_filterMap] at ha
    obtain ⟨f, _, hp⟩ := ha
    exact (parse_feature_some_shape env same_code f a hp).1
  refine ⟨hparse, ?_, ?_⟩
  · intro env data same_code a ha
    rw [_parse_alerts_from_main_endpoint, List.mem_filterMap] at ha
    obtain ⟨f, _, hp⟩ := ha
    exact (parse_feature_some_shape env same_code f a hp).1
  · intro env latitude longitude alerts hok a ha
    revert hok
    unfold get_alerts_for_coordinates
    cases hpt : env.pointsGet
        (BASE_URL ++ "/points/" ++ toString latitude ++ "," ++ toString longitude) with
    | error e => intro hok; cases hok
    | ok points_data =>
      simp only []
      split
      · intro hok
        cases hok
        cases ha
      · intro hok
        cases hok
        rcases List.mem_append.mp ha with hmem | hmem
        · revert hmem
          split
          · intro hmem
            have := hparse _ _ _ a hmem
            exact ⟨Or.inl ⟨_, this⟩, by rw [this]; rfl⟩
          · intro hmem; cases hmem
        · revert hmem
          split
          · intro hmem
            have := hparse _ _ _ a hmem
            exact ⟨Or.inr ⟨_, this⟩, by rw [this]; rfl⟩
          · intro hmem; cases hmem

/-- C10 witness: the two demo alerts parsed under the demo county label
each carry exactly that single label. -/
theorem C10_singleton_same_codes_witness :
    demoAlertCounty.same_codes = ["County: TXC453"] :=
  C10_singleton_same_codes.1 demoEnv { features := [demoFeatureGood] }
    "County: TXC453" demoAlertCounty (by decide)

/-! Helper lemmas: Python `max(..., key=...)` selects the first element
attaining the maximum key, which is exactly `first_max_spec`. -/

theorem first_max_spec_cons_none (key : WeatherAlert → Int) (a : WeatherAlert)
    (l : List WeatherAlert) (h : first_max_spec key l = none) :
    first_max_spec key (a :: l) = some a := by
  unfold first_max_spec
  rw [h]

theorem first_max_spec_cons_some (key : WeatherAlert → Int) (a y : WeatherAlert)
    (l : List WeatherAlert) (h : first_max_spec key l = some y) :
    first_max_spec key (a :: l) =
      if key y > key a then some y else some a := by
  unfold first_max_spec
  rw [h]

theorem py_max_by_eq_first_max (key : WeatherAlert → Int) :
    ∀ (xs : List WeatherAlert) (x : WeatherAlert),
      py_max_by key x xs =
        match first_max_spec key xs with
        | none => x
        | some y => if key y > key x then y else x := by
  intro xs
  induction xs with
  | nil => intro x; rfl
  | cons a l ih =>
    intro x
    have hstep : py_max_by key x (a :: l) =
        py_max_by key (if key a > key x then a else x) l := rfl
    rw [hstep, ih]
    cases h : first_max_spec key l with
    | none =>
      rw [first_max_spec_cons_none key a l h]
    | some y =>
      rw [first_max_spec_cons_some key a y l h]
      simp only []
      by_cases h1 : key y > key a
      · rw [if_pos h1]
        simp only []
        split_ifs <;> first | rfl | (exfalso; omega)
      · rw [if_neg h1]
        simp only []
        split_ifs <;> first | rfl | (exfalso; omega)

theorem first_max_spec_none_iff (key : WeatherAlert → Int) (l : List WeatherAlert) :
    first_max_spec key l = none ↔ l = [] := by
  cases l with
  | nil => simp [first_max_spec]
  | cons a t =>
    cases h : first_max_spec key t with
    | none => rw [first_max_spec_cons_none key a t h]; simp
    | some y =>
      rw [first_max_spec_cons_some key a y t h]
      split_ifs <;> simp

theorem first_max_spec_mem_ge (key : WeatherAlert → Int) :
    ∀ (l : List WeatherAlert) (a : WeatherAlert), first_max_spec key l = some a →
      a ∈ l ∧ ∀ b ∈ l, key b ≤ key a := by
  intro l
  induction l with
  | nil => intro a h; cases h
  | cons x t ih =>
    intro a h
    cases ht : first_max_spec key t with
    | none =>
      rw [first_max_spec_cons_none key x t ht] at h
      cases h
      have ht2 : t = [] := (first_max_spec_none_iff key t).mp ht
      subst ht2
      exact ⟨List.mem_singleton.mpr rfl, by simp⟩
    | some y =>
      rw [first_max_spec_cons_some key x y t ht] at h
      obtain ⟨hy, hge⟩ := ih y ht
      by_cases hxy : key y > key x
      · rw [if_pos hxy] at h
        cases h
        exact ⟨List.mem_cons_of_mem x hy,
          fun b hb => by
            rcases List.mem_cons.mp hb with rfl | hb
            · exact le_of_lt hxy
            · exact hge b hb⟩
      · rw [if_neg hxy] at h
        cases h
        exact ⟨List.mem_cons_self _ _,
          fun b hb => by
            rcases List.mem_cons.mp hb with rfl | hb
            · exact le_refl _
            · exact le_trans (hge b hb) (not_lt.mp hxy)⟩

/-- C3: the most-important selection for a location returns `None`
exactly when no fetched alert survives the `is_expired` filter, and
otherwise the non-expired alert of maximum `importance_score`, ties
broken by the first such alert in iteration order (the selection equals
the spec-side `first_max_spec` over the filtered list). -/
theorem C3_most_important_for_location (env : ServiceEnv) (city state : String) :
    (get_most_important_alerts_for_location env city state = none ↔
      ∀ a ∈ fetched_alerts_for_location env city state,
        a.is_expired env.nowUtc = true) ∧
    (get_most_important_alerts_for_location env city state =
      first_max_spec WeatherAlert.importance_score
        (active_alerts_for_location env city state)) ∧
    (∀ a, get_most_important_alerts_for_location env city state = some a →
      a ∈ active_alerts_for_location env city state ∧
      a.is_expired env.nowUtc = false ∧
      ∀ b ∈ active_alerts_for_location env city state,
        b.importance_score ≤ a.importance_score) := by
  have heq : get_most_important_alerts_for_location env city state =
      first_max_spec WeatherAlert.importance_score
        (active_alerts_for_location env city state) := by
    unfold get_most_important_alerts_for_location
    cases hact : active_alerts_for_location env city state with
    | nil => rfl
    | cons x xs =>
      simp only []
      rw [py_max_by_eq_first_max]
      cases h : first_max_spec WeatherAlert.importance_score xs with
      | none =>
        rw [first_max_spec_cons_none WeatherAlert.importance_score x xs h]
      | some y =>
        rw [first_max_spec_cons_some WeatherAlert.importance_score x y xs h]
        simp only []
        split_ifs <;> rfl
  refine ⟨?_, heq, fun a ha => ?_⟩
  · rw [heq, first_max_spec_none_iff]
    unfold active_alerts_for_location
    rw [List.filter_eq_nil_iff]
    constructor
    · intro h a ha
      have := h a ha
      simpa using this
    · intro h a ha
      simpa using h a ha
  · rw [heq] at ha
    obtain ⟨hmem, hge⟩ := first_max_spec_mem_ge _ _ _ ha
    have hfil : a ∈ fetched_alerts_for_location env city state ∧
        a.is_expired env.nowUtc = false := by
      simpa [active_alerts_for_location] using hmem
    exact ⟨hmem, hfil.2, hge⟩

/-- C3 witness: the non-expired demo alert is selected for the demo
location, dominates the active list, and belongs to it. -/
theorem C3_most_important_for_location_witness :
    demoAlertCounty ∈ active_alerts_for_location demoEnv "Austin" "TX" ∧
    demoAlertCounty.is_expired demoEnv.nowUtc = false ∧
    ∀ b ∈ active_alerts_for_location demoEnv "Austin" "TX",
      b.importance_score ≤ demoAlertCounty.importance_score :=
  (C3_most_important_for_location demoEnv "Austin" "TX").2.2 demoAlertCounty (by decide)

/-! Helper lemmas about the endpoint cascade. -/

theorem httpOk_false_iff (r : Except String AlertsData) :
    httpOk r = false ↔ ∃ e, r = .error e := by
  cases r <;> simp [httpOk]

theorem fetch_loop_first_success (env : ServiceEnv) (same_code : String) :
    ∀ (l₁ : List String) (url : String) (l₂ : List String) (last : Option String)
      (data : AlertsData),
      (∀ u ∈ l₁, httpOk (env.alertsGet u) = false) →
      env.alertsGet url = .ok data →
      fetch_loop env same_code (l₁ ++ url :: l₂) last =
        .ok (if url = BASE_URL ++ ALERTS_ENDPOINT
             then _parse_alerts_from_main_endpoint env data same_code
             else _parse_alerts env data same_code) := by
  intro l₁
  induction l₁ with
  | nil =>
    intro url l₂ last data _ hok
    show fetch_loop env same_code (url :: l₂) last = _
    simp only [fetch_loop, hok]
    split <;> rfl
  | cons u rest ih =>
    intro url l₂ last data hfail hok
    obtain ⟨e, he⟩ := (httpOk_false_iff _).mp (hfail u (List.mem_cons_self u rest))
    show fetch_loop env same_code (u :: (rest ++ url :: l₂)) last = _
    simp only [fetch_loop, he]
    exact ih url l₂ (some e) data
      (fun v hv => hfail v (List.mem_cons_of_mem u hv)) hok

theorem fetch_loop_all_fail (env : ServiceEnv) (same_code : String) :
    ∀ (l : List String) (last : Option String),
      (∀ u ∈ l, httpOk (env.alertsGet u) = false) →
      l ≠ [] →
      ∃ u e, l.getLast? = some u ∧ env.alertsGet u = .error e ∧
        fetch_loop env same_code l last = .error e := by
  intro l
  induction l with
  | nil => intro last _ hne; exact absurd rfl hne
  | cons u rest ih =>
    intro last hfail _
    obtain ⟨e, he⟩ := (httpOk_false_iff _).mp (hfail u (List.mem_cons_self u rest))
    cases rest with
    | nil =>
      refine ⟨u, e, rfl, he, ?_⟩
      simp only [fetch_loop, he]
    | cons v t =>
      obtain ⟨u2, e2, hlast, herr, hloop⟩ :=
        ih (some e) (fun w hw => hfail w (List.mem_cons_of_mem u hw)) (by simp)
      refine ⟨u2, e2, ?_, herr, ?_⟩
      · rw [List.getLast?_cons_cons]
        exact hlast
      · show fetch_loop env same_code (u :: v :: t) last = _
        simp only [fetch_loop, he]
        exact hloop

theorem endpoints_to_try_ne_nil (same_code : String) :
    endpoints_to_try same_code ≠ [] := by
  unfold endpoints_to_try
  split <;> simp

/-- C7: the fetcher tries the candidate endpoints in the fixed
documented order (unfiltered active-alerts endpoint with client-side
filtering first, then area, zone, county by raw code, then the
state-prefixed zone/county reformattings for 6-character codes) and
returns the parsed body of the first endpoint that responds
successfully, without merging across endpoints; if every candidate
fails, the last encountered error is raised. -/
theorem C7_fetch_cascade (env : ServiceEnv) (same_code : String) :
    (∀ (l₁ : List String) (url : String) (l₂ : List String) (data : AlertsData),
      endpoints_to_try same_code = l₁ ++ url :: l₂ →
      (∀ u ∈ l₁, httpOk (env.alertsGet u) = false) →
      env.alertsGet url = .ok data →
      _fetch_alerts_for_same_code env same_code =
        .ok (if url = BASE_URL ++ ALERTS_ENDPOINT
             then _parse_alerts_from_main_endpoint env data same_code
             else _parse_alerts env data same_code)) ∧
    ((∀ u ∈ endpoints_to_try same_code, httpOk (env.alertsGet u) = false) →
      ∃ u e, (endpoints_to_try same_code).getLast? = some u ∧
        env.alertsGet u = .error e ∧
        _fetch_alerts_for_same_code env same_code = .error e) := by
  constructor
  · intro l₁ url l₂ data hdec hfail hok
    unfold _fetch_alerts_for_same_code
    rw [hdec]
    exact fetch_loop_first_success env same_code l₁ url l₂ none data hfail hok
  · intro hfail
    obtain ⟨u, e, hlast, herr, hloop⟩ :=
      fetch_loop_all_fail env same_code (endpoints_to_try same_code) none hfail
        (endpoints_to_try_ne_nil same_code)
    exact ⟨u, e, hlast, herr, hloop⟩

/-- C7 witness: for code 045019 the main endpoint fails and the
area-scoped endpoint (the second candidate) succeeds, so the fetch
returns exactly its parsed body. -/
theorem C7_fetch_cascade_witness :
    _fetch_alerts_for_same_code demoEnvFetch "045019" =
      .ok (if (BASE_URL ++ ALERTS_ENDPOINT ++ "/area/" ++ "045019") =
              BASE_URL ++ ALERTS_ENDPOINT
           then _parse_alerts_from_main_endpoint demoEnvFetch
             { features := [demoFeatureGood, demoFeatureSevereExpired] } "045019"
           else _parse_alerts demoEnvFetch
             { features := [demoFeatureGood, demoFeatureSevereExpired] } "045019") :=
  (C7_fetch_cascade demoEnvFetch "045019").1
    [BASE_URL ++ ALERTS_ENDPOINT]
    (BASE_URL ++ ALERTS_ENDPOINT ++ "/area/" ++ "045019")
    [BASE_URL ++ ALERTS_ENDPOINT ++ "/zone/" ++ "045019",
     BASE_URL ++ ALERTS_ENDPOINT ++ "/county/" ++ "045019",
     BASE_URL ++ ALERTS_ENDPOINT ++ "/zone/" ++ "04Z5019",
     BASE_URL ++ ALERTS_ENDPOINT ++ "/county/" ++ "04C5019"]
    { features := [demoFeatureGood, demoFeatureSevereExpired] }
    (by decide) (by decide) rfl

/-! Helper lemmas about the per-code result map of
`get_most_important_alerts`. -/

theorem mapSet_cons (k : String) (w : Option WeatherAlert) (rest : ResultMap)
    (code : String) (v : Option WeatherAlert) :
    mapSet ((k, w) :: rest) code v =
      (if k = code then (k, v) else (k, w)) :: mapSet rest code v := rfl

theorem mapGet_mapSet_self (m : ResultMap) (code : String) (v : Option WeatherAlert) :
    mapGet (mapSet m code v) code = (mapGet m code).map (fun _ => v) := by
  induction m with
  | nil => rfl
  | cons kv rest ih =>
    obtain ⟨k, w⟩ := kv
    rw [mapSet_cons]
    by_cases h : k = code
    · rw [if_pos h]
      simp [mapGet, h]
    · rw [if_neg h]
      simp [mapGet, h, ih]

theorem mapGet_mapSet_ne (m : ResultMap) (code : String) (v : Option WeatherAlert)
    (c : String) (h : c ≠ code) :
    mapGet (mapSet m code v) c = mapGet m c := by
  induction m with
  | nil => rfl
  | cons kv rest ih =>
    obtain ⟨k, w⟩ := kv
    rw [mapSet_cons]
    by_cases hk : k = code
    · rw [if_pos hk]
      have hkc : ¬(k = c) := by rw [hk]; exact fun h2 => h h2.symm
      simp [mapGet, hkc, ih]
    · rw [if_neg hk]
      by_cases hkc : k = c
      · simp [mapGet, hkc]
      · simp [mapGet, hkc, ih]

theorem any_key_eq_isSome (m : ResultMap) (code : String) :
    (m.any fun kv => kv.1 = code) = (mapGet m code).isSome := by
  induction m with
  | nil => rfl
  | cons kv rest ih =>
    by_cases h : kv.1 = code
    · simp [mapGet, h]
    · simp [mapGet, h, ih]

theorem mapGet_append (m₁ m₂ : ResultMap) (c : String) :
    mapGet (m₁ ++ m₂) c =
      match mapGet m₁ c with
      | some v => some v
      | none => mapGet m₂ c := by
  induction m₁ with
  | nil => rfl
  | cons kv rest ih =>
    by_cases h : kv.1 = c
    · simp [mapGet, h]
    · simp only [List.cons_append, mapGet, if_neg h]
      exact ih

theorem mapGet_init_go (codes : List String) :
    ∀ (m : ResultMap) (c : String),
      mapGet (codes.foldl
        (fun m code => if m.any (fun kv => kv.1 = code) then m else m ++ [(code, none)])
        m) c =
      match mapGet m c with
      | some v => some v
      | none => if c ∈ codes then some none else none := by
  induction codes with
  | nil =>
    intro m c
    cases h : mapGet m c <;> simp [h]
  | cons code rest ih =>
    intro m c
    rw [List.foldl_cons]
    by_cases hany : (m.any fun kv => kv.1 = code) = true
    · rw [if_pos hany, ih]
      rw [any_key_eq_isSome] at hany
      by_cases hc : c = code
      · subst hc
        obtain ⟨v, hv⟩ := Option.isSome_iff_exists.mp hany
        simp [hv]
      · cases h : mapGet m c <;> simp [h, List.mem_cons, hc]
    · rw [if_neg hany, ih]
      rw [any_key_eq_isSome] at hany
      have hnone : mapGet m code = none := by
        cases h : mapGet m code
        · rfl
        · rw [h] at hany; simp at hany
      by_cases hc : c = code
      · subst hc
        rw [hnone]
        rw [mapGet_append, hnone]
        simp [mapGet]
      · rw [mapGet_append]
        have hc2 : ¬(code = c) := fun h2 => hc h2.symm
        have : mapGet [(code, none)] c = none := by simp [mapGet, hc2]
        rw [this]
        cases h : mapGet m c <;> simp [h, List.mem_cons, hc]

theorem mapGet_init (codes : List String) (c : String) :
    mapGet (init_result codes) c = if c ∈ codes then some none else none := by
  unfold init_result
  rw [mapGet_init_go]
  rfl

theorem bump_idem (cur : Option WeatherAlert) (a : WeatherAlert) :
    bump (bump cur a) a = bump cur a := by
  cases cur with
  | none =>
    show bump (some a) a = some a
    simp [bump]
  | some b =>
    by_cases h : a.importance_score > b.importance_score
    · have h1 : bump (some b) a = some a := by simp [bump, h]
      rw [h1]
      simp [bump]
    · have h1 : bump (some b) a = some b := by simp [bump, h]
      rw [h1]
      exact h1

theorem consider_alert_mapGet (codes : List String) (r : ResultMap)
    (a : WeatherAlert) (code' : String) (g : String → Option WeatherAlert)
    (hr : ∀ c, mapGet r c = if c ∈ codes then some (g c) else none) :
    ∀ c, mapGet (consider_alert codes r a code') c =
      if c ∈ codes then some (if c = code' then bump (g c) a else g c) else none := by
  intro c
  by_cases hcs : code' ∈ codes
  · have h1 : mapGet r code' = some (g code') := by rw [hr code', if_pos hcs]
    unfold consider_alert
    rw [if_pos hcs, h1]
    cases hg : g code' with
    | none =>
      simp only []
      by_cases hc : c = code'
      · subst hc
        rw [mapGet_mapSet_self, h1, if_pos hcs]
        simp [hg, bump]
      · rw [mapGet_mapSet_ne r code' (some a) c hc, hr c]
        by_cases h2 : c ∈ codes <;> simp [h2, hc]
    | some b =>
      simp only []
      by_cases hscore : a.importance_score > b.importance_score
      · rw [if_pos hscore]
        by_cases hc : c = code'
        · subst hc
          rw [mapGet_mapSet_self, h1, if_pos hcs]
          simp [hg, bump, hscore]
        · rw [mapGet_mapSet_ne r code' (some a) c hc, hr c]
          by_cases h2 : c ∈ codes <;> simp [h2, hc]
      · rw [if_neg hscore]
        by_cases hc : c = code'
        · subst hc
          rw [hr c, if_pos hcs]
          simp [hg, bump, hscore, hcs]
        · rw [hr c]
          by_cases h2 : c ∈ codes <;> simp [h2, hc]
  · unfold consider_alert
    rw [if_neg hcs, hr c]
    by_cases hc : c = code'
    · subst hc
      simp [hcs]
    · by_cases h2 : c ∈ codes <;> simp [h2, hc]

theorem inner_fold_mapGet (codes : List String) (a : WeatherAlert) :
    ∀ (il : List String) (r : ResultMap) (g : String → Option WeatherAlert),
      (∀ c, mapGet r c = if c ∈ codes then some (g c) else none) →
      ∀ c, mapGet (il.foldl (fun r code => consider_alert codes r a code) r) c =
        if c ∈ codes then some (if c ∈ il then bump (g c) a else g c) else none := by
  intro il
  induction il with
  | nil =>
    intro r g hr c
    simpa using hr c
  | cons code' rest ih =>
    intro r g hr c
    rw [List.foldl_cons]
    have hstep := consider_alert_mapGet codes r a code' g hr
    have hrec := ih (consider_alert codes r a code')
      (fun c2 => if c2 = code' then bump (g c2) a else g c2) hstep c
    rw [hrec]
    by_cases h1 : c ∈ codes <;> by_cases h2 : c = code' <;>
      by_cases h3 : c ∈ rest <;>
      simp [h1, h2, h3, List.mem_cons, bump_idem]

theorem bestStep_expired (nowUtc : Int) (code : String) (cur : Option WeatherAlert)
    (a : WeatherAlert) (h : a.is_expired nowUtc = true) :
    bestStep nowUtc code cur a = cur := by
  simp [bestStep, h]

theorem bestStep_not_expired (nowUtc : Int) (code : String) (cur : Option WeatherAlert)
    (a : WeatherAlert) (h : a.is_expired nowUtc = false) :
    bestStep nowUtc code cur a =
      if code ∈ a.same_codes then bump cur a else cur := by
  simp only [bestStep, h]
  rfl

theorem outer_fold_mapGet (env : ServiceEnv) (codes : List String) :
    ∀ (alerts : List WeatherAlert) (r : ResultMap) (g : String → Option WeatherAlert),
      (∀ c, mapGet r c = if c ∈ codes then some (g c) else none) →
      ∀ c, mapGet (alerts.foldl
          (fun result alert =>
            if alert.is_expired env.nowUtc then result
            else alert.same_codes.foldl
              (fun result code => consider_alert codes result alert code) result)
          r) c =
        if c ∈ codes then some (alerts.foldl (bestStep env.nowUtc c) (g c)) else none := by
  intro alerts
  induction alerts with
  | nil =>
    intro r g hr c
    simpa using hr c
  | cons alert rest ih =>
    intro r g hr c
    rw [List.foldl_cons, List.foldl_cons]
    by_cases hexp : alert.is_expired env.nowUtc = true
    · rw [if_pos hexp, bestStep_expired env.nowUtc c (g c) alert hexp]
      exact ih r g hr c
    · have hexp2 : alert.is_expired env.nowUtc = false := by
        simpa using hexp
      rw [if_neg hexp, bestStep_not_expired env.nowUtc c (g c) alert hexp2]
      have hinner := inner_fold_mapGet codes alert alert.same_codes r g hr
      have := ih (alert.same_codes.foldl
          (fun r code => consider_alert codes r alert code) r)
        (fun c2 => if c2 ∈ alert.same_codes then bump (g c2) alert else g c2)
        hinner c
      simpa using this

theorem gmia_mapGet (env : ServiceEnv) (same_codes : List String) (c : String) :
    mapGet (get_most_important_alerts env same_codes) c =
      if c ∈ same_codes then
        some (best_for_code env.nowUtc c (get_alerts_for_same_codes env same_codes))
      else none := by
  unfold get_most_important_alerts
  exact outer_fold_mapGet env same_codes (get_alerts_for_same_codes env same_codes)
    (init_result same_codes) (fun _ => none) (fun c2 => mapGet_init same_codes c2) c

theorem bestStep_none_iff (nowUtc : Int) (code : String) (cur : Option WeatherAlert)
    (a : WeatherAlert) :
    bestStep nowUtc code cur a = none ↔
      cur = none ∧ (a.is_expired nowUtc = true ∨ code ∉ a.same_codes) := by
  by_cases hexp : a.is_expired nowUtc = true
  · rw [bestStep_expired nowUtc code cur a hexp]
    simp [hexp]
  · have hexp2 : a.is_expired nowUtc = false := by simpa using hexp
    rw [bestStep_not_expired nowUtc code cur a hexp2]
    by_cases hmem : code ∈ a.same_codes
    · rw [if_pos hmem]
      cases cur with
      | none => simp [bump, hexp, hmem]
      | some b =>
        simp only [bump]
        split_ifs <;> simp [hexp, hmem]
    · rw [if_neg hmem]
      simp [hexp, hmem]

theorem foldl_bestStep_none_iff (nowUtc : Int) (code : String) :
    ∀ (l : List WeatherAlert) (cur : Option WeatherAlert),
      l.foldl (bestStep nowUtc code) cur = none ↔
        cur = none ∧ ∀ a ∈ l, a.is_expired nowUtc = true ∨ code ∉ a.same_codes := by
  intro l
  induction l with
  | nil => intro cur; simp
  | cons x t ih =>
    intro cur
    rw [List.foldl_cons, ih, bestStep_none_iff]
    constructor
    · rintro ⟨⟨hcur, hx⟩, ht⟩
      exact ⟨hcur, fun a ha => by
        rcases List.mem_cons.mp ha with rfl | ha
        · exact hx
        · exact ht a ha⟩
    · rintro ⟨hcur, hall⟩
      exact ⟨⟨hcur, hall x (List.mem_cons_self x t)⟩,
        fun a ha => hall a (List.mem_cons_of_mem x ha)⟩

theorem foldl_bestStep_some_src (nowUtc : Int) (code : String) :
    ∀ (l : List WeatherAlert) (cur : Option WeatherAlert) (x : WeatherAlert),
      l.foldl (bestStep nowUtc code) cur = some x →
      cur = some x ∨
        (x ∈ l ∧ x.is_expired nowUtc = false ∧ code ∈ x.same_codes) := by
  intro l
  induction l with
  | nil => intro cur x h; exact Or.inl h
  | cons b t ih =>
    intro cur x h
    rw [List.foldl_cons] at h
    rcases ih (bestStep nowUtc code cur b) x h with hstep | hmem
    · by_cases hexp : b.is_expired nowUtc = true
      · rw [bestStep_expired nowUtc code cur b hexp] at hstep
        exact Or.inl hstep
      · have hexp2 : b.is_expired nowUtc = false := by simpa using hexp
        rw [bestStep_not_expired nowUtc code cur b hexp2] at hstep
        by_cases hmem2 : code ∈ b.same_codes
        · rw [if_pos hmem2] at hstep
          cases cur with
          | none =>
            simp only [bump, Option.some.injEq] at hstep
            subst hstep
            exact Or.inr ⟨List.mem_cons_self b t, hexp2, hmem2⟩
          | some d =>
            revert hstep
            simp only [bump]
            split_ifs with hscore
            · intro hstep
              cases hstep
              exact Or.inr ⟨List.mem_cons_self b t, hexp2, hmem2⟩
            · intro hstep
              exact Or.inl hstep
        · rw [if_neg hmem2] at hstep
          exact Or.inl hstep
    · exact Or.inr ⟨List.mem_cons_of_mem b hmem.1, hmem.2⟩

theorem bestStep_some_mono (nowUtc : Int) (code : String) (d : WeatherAlert)
    (b : WeatherAlert) :
    ∃ d2, bestStep nowUtc code (some d) b = some d2 ∧
      d.importance_score ≤ d2.importance_score := by
  by_cases hexp : b.is_expired nowUtc = true
  · exact ⟨d, bestStep_expired nowUtc code (some d) b hexp, le_refl _⟩
  · have hexp2 : b.is_expired nowUtc = false := by simpa using hexp
    rw [bestStep_not_expired nowUtc code (some d) b hexp2]
    by_cases hmem : code ∈ b.same_codes
    · rw [if_pos hmem]
      simp only [bump]
      split_ifs with hscore
      · exact ⟨b, rfl, le_of_lt hscore⟩
      · exact ⟨d, rfl, le_refl _⟩
    · rw [if_neg hmem]
      exact ⟨d, rfl, le_refl _⟩

theorem foldl_bestStep_mono (nowUtc : Int) (code : String) :
    ∀ (l : List WeatherAlert) (d x : WeatherAlert),
      l.foldl (bestStep nowUtc code) (some d) = some x →
      d.importance_score ≤ x.importance_score := by
  intro l
  induction l with
  | nil =>
    intro d x h
    cases h
    exact le_refl _
  | cons b t ih =>
    intro d x h
    rw [List.foldl_cons] at h
    obtain ⟨d2, hd2, hle⟩ := bestStep_some_mono nowUtc code d b
    rw [hd2] at h
    exact le_trans hle (ih d2 x h)

theorem bestStep_relevant_ge (nowUtc : Int) (code : String)
    (cur : Option WeatherAlert) (b : WeatherAlert)
    (hexp : b.is_expired nowUtc = false) (hmem : code ∈ b.same_codes) :
    ∃ d, bestStep nowUtc code cur b = some d ∧
      b.importance_score ≤ d.importance_score := by
  rw [bestStep_not_expired nowUtc code cur b hexp, if_pos hmem]
  cases cur with
  | none => exact ⟨b, rfl, le_refl _⟩
  | some e =>
    simp only [bump]
    split_ifs with hscore
    · exact ⟨b, rfl, le_refl _⟩
    · exact ⟨e, rfl, not_lt.mp hscore⟩

theorem foldl_bestStep_ge (nowUtc : Int) (code : String) :
    ∀ (l : List WeatherAlert) (cur : Option WeatherAlert) (x : WeatherAlert),
      l.foldl (bestStep nowUtc code) cur = some x →
      ∀ b ∈ l, b.is_expired nowUtc = false → code ∈ b.same_codes →
        b.importance_score ≤ x.importance_score := by
  intro l
  induction l with
  | nil => intro cur x _ b hb; cases hb
  | cons h t ih =>
    intro cur x hfold b hb hbexp hbmem
    rw [List.foldl_cons] at hfold
    rcases List.mem_cons.mp hb with rfl | hb2
    · obtain ⟨d, hd, hge⟩ := bestStep_relevant_ge nowUtc code cur b hbexp hbmem
      rw [hd] at hfold
      exact le_trans hge (foldl_bestStep_mono nowUtc code t d x hfold)
    · exact ih (bestStep nowUtc code cur h) x hfold b hb2 hbexp hbmem

/-- C8: `get_most_important_alerts` returns a mapping whose keys are
exactly the input SAME codes; each code maps to the maximum-importance
non-expired fetched alert whose `same_codes` include that code (the
per-code best, `best_for_code`), and to `None` exactly when no
non-expired fetched alert carries the code. -/
theorem C8_most_important_per_code (env : ServiceEnv) (same_codes : List String) :
    (∀ c, (mapGet (get_most_important_alerts env same_codes) c).isSome = true ↔
      c ∈ same_codes) ∧
    (∀ c ∈ same_codes,
      mapGet (get_most_important_alerts env same_codes) c =
        some (best_for_code env.nowUtc c (get_alerts_for_same_codes env same_codes))) ∧
    (∀ c ∈ same_codes,
      (best_for_code env.nowUtc c (get_alerts_for_same_codes env same_codes) = none ↔
        ∀ a ∈ get_alerts_for_same_codes env same_codes,
          a.is_expired env.nowUtc = false → c ∉ a.same_codes)) ∧
    (∀ c ∈ same_codes, ∀ a,
      best_for_code env.nowUtc c (get_alerts_for_same_codes env same_codes) = some a →
        a ∈ get_alerts_for_same_codes env same_codes ∧
        a.is_expired env.nowUtc = false ∧ c ∈ a.same_codes ∧
        ∀ b ∈ get_alerts_for_same_codes env same_codes,
          b.is_expired env.nowUtc = false → c ∈ b.same_codes →
            b.importance_score ≤ a.importance_score) := by
  refine ⟨fun c => ?_, fun c hc => ?_, fun c _ => ?_, fun c _ => fun a ha => ?_⟩
  · rw [gmia_mapGet]
    by_cases hc : c ∈ same_codes <;> simp [hc]
  · rw [gmia_mapGet, if_pos hc]
  · unfold best_for_code
    rw [foldl_bestStep_none_iff]
    constructor
    · rintro ⟨_, hall⟩ a ha haexp
      rcases hall a ha with hexp | hnot
      · rw [haexp] at hexp; cases hexp
      · exact hnot
    · intro hall
      refine ⟨rfl, fun a ha => ?_⟩
      cases hexp : a.is_expired env.nowUtc with
      | true => exact Or.inl rfl
      | false => exact Or.inr (hall a ha hexp)
  · unfold best_for_code at ha
    rcases foldl_bestStep_some_src env.nowUtc c _ none a ha with hcur | hsrc
    · cases hcur
    · exact ⟨hsrc.1, hsrc.2.1, hsrc.2.2,
        foldl_bestStep_ge env.nowUtc c _ none a ha⟩

/-- C8 witness: for the single input code 045019 against a feed with one
non-expired and one expired alert for that code, the mapping holds the
per-code best, which is the non-expired alert. -/
theorem C8_most_important_per_code_witness :
    mapGet (get_most_important_alerts demoEnvFetch ["045019"]) "045019" =
      some (best_for_code demoEnvFetch.nowUtc "045019"
        (get_alerts_for_same_codes demoEnvFetch ["045019"])) ∧
    best_for_code demoEnvFetch.nowUtc "045019"
      (get_alerts_for_same_codes demoEnvFetch ["045019"]) = some demoAlert045 :=
  ⟨(C8_most_important_per_code demoEnvFetch ["045019"]).2.1 "045019" (by decide),
   by decide⟩

end WeatherBox
